import Mathlib

/-!
Verification development for the AIR-assist Android client's
connection-resilience core.

The definitions below are shallow embeddings of the JavaScript source:

* `WS`  — `WebSocketServiceClass` (src/unnamed/part_022, lines 77–356):
  connection flags, reconnect timer with exponential backoff, keepalive
  interval, and the in-memory `messageQueue`.
* `App` — `AppProvider` (src/unnamed/part_022, lines 357–822) together with
  the pending-message persistence helpers of src/src/utils/storage.js:
  the durable `pendingMessages` outbox, `sendTextToServer`,
  `sendAudioToServer`, and `processPendingMessages`.
* `Home` — the auto-listen effects of `HomeScreen`
  (src/unnamed/part_020, lines 56–72 / src/full-code.js, lines 1960–1976).
* `BT`  — `connectToDevice` of src/src/context/BluetoothContext.js
  (lines 140–186): the saved-device history update and the retry chain.

JavaScript numbers are modelled as `ℚ` where fractional arithmetic occurs
(backoff delays; exact for the reachable attempt counts) and as `ℕ`
elsewhere.  The event-driven runtime is modelled as explicit state-passing:
each JS method becomes a total function on the component's state, callbacks
become returned event lists, and timers become fields counting live handles.
-/

namespace AirAssist

namespace WS

/-- State of `WebSocketServiceClass` (src/unnamed/part_022).
`reconnectHandleStored` models `this.reconnectTimeout !== null`;
`reconnectHandleLive` records whether that stored handle refers to a timer
that has neither been cleared nor fired; `liveTimers` counts every
scheduled-and-still-pending reconnect timer (so that timer duplication
would be observable).  `scheduledLog` records the delay of every timer the
service ever set, in order.  `socketsCreated` counts `new WebSocket(url)`
evaluations. -/
structure WSState where
  isConnected : Bool := false
  isConnecting : Bool := false
  reconnectHandleStored : Bool := false
  reconnectHandleLive : Bool := false
  liveTimers : Nat := 0
  reconnectAttempts : Nat := 0
  reconnectDelay : ℚ := 2000
  reconnectTimerDelay : ℚ := 0
  scheduledLog : List ℚ := []
  messageQueue : List String := []
  socketExists : Bool := false
  pingIntervalActive : Bool := false
  socketsCreated : Nat := 0
deriving DecidableEq, Repr

/-- The constructor state of `WebSocketServiceClass`. -/
def initialWS : WSState := {}

/-- A process restart discards the singleton service and rebuilds it from its
constructor; nothing of the in-memory `messageQueue` is persisted anywhere. -/
def restartWS : WSState := initialWS

/-- `this.maxReconnectAttempts = 5` (part_022 line 85). -/
def maxReconnectAttempts : Nat := 5

/-- The delay the source computes for reconnect attempt `n` (part_022 line
216): `Math.min(this.reconnectDelay * Math.pow(1.5, attempts - 1), 30000)`
with `reconnectDelay = 2000`.  Exact in `ℚ`; the JS doubles agree for every
reachable attempt count (`n ≤ 5`). -/
def reconnectDelayFormula (n : Nat) : ℚ :=
  min (2000 * (3 / 2 : ℚ) ^ (n - 1)) 30000

/-- `BackgroundTimer.clearTimeout(this.reconnectTimeout)` guarded by
`if (this.reconnectTimeout)`; the field itself is not nulled here. -/
def clearReconnectTimeout (s : WSState) : WSState :=
  if s.reconnectHandleStored then
    { s with reconnectHandleLive := false,
             liveTimers := if s.reconnectHandleLive then s.liveTimers - 1 else s.liveTimers }
  else s

/-- `scheduleReconnect` (part_022 lines 200–225): clear any existing timer,
give up once `reconnectAttempts >= maxReconnectAttempts`, otherwise
increment the attempt counter and set one timer with the backoff delay. -/
def scheduleReconnect (s : WSState) : WSState :=
  let s1 := clearReconnectTimeout s
  if s1.reconnectAttempts ≥ maxReconnectAttempts then s1
  else
    let a := s1.reconnectAttempts + 1
    let d := min (s1.reconnectDelay * (3 / 2 : ℚ) ^ (a - 1)) 30000
    { s1 with reconnectAttempts := a,
              reconnectHandleStored := true,
              reconnectHandleLive := true,
              liveTimers := s1.liveTimers + 1,
              reconnectTimerDelay := d,
              scheduledLog := s1.scheduledLog ++ [d] }

/-- `connect` (part_022 lines 116–135), normal path: a no-op when already
connected or connecting, otherwise creates a socket and enters the
connecting state.  Note that it does not touch the reconnect timer. -/
def connect (s : WSState) : WSState :=
  if s.isConnected || s.isConnecting then s
  else { s with isConnecting := true,
                socketExists := true,
                socketsCreated := s.socketsCreated + 1 }

/-- Externally observable effects of `handleOpen`. -/
inductive WSEvent where
  | sentMsg (m : String)
  | connectCb
deriving DecidableEq, Repr

/-- `processMessageQueue` (part_022 lines 260–268): while connected, shift
every queued message and hand it to `socket.send`, oldest first.  Returns
the drained messages in send order. -/
def processMessageQueue (s : WSState) : WSState × List String :=
  if !s.isConnected || s.messageQueue.isEmpty then (s, [])
  else ({ s with messageQueue := [] }, s.messageQueue)

/-- `handleOpen` (part_022 lines 140–154): mark connected, reset the attempt
counter and base delay, drain the queue via `processMessageQueue`, and only
then fire `onConnectCallback`.  The emitted event list preserves that
order. -/
def handleOpen (s : WSState) : WSState × List WSEvent :=
  let s1 := { s with isConnected := true, isConnecting := false,
                     reconnectAttempts := 0, reconnectDelay := 2000 }
  let p := processMessageQueue s1
  (p.1, p.2.map WSEvent.sentMsg ++ [WSEvent.connectCb])

/-- `handleClose` (part_022 lines 181–195): drop the connection flags, then
schedule a reconnect unless the close code is the graceful `1000`. -/
def handleClose (code : Nat) (s : WSState) : WSState :=
  let s1 := { s with isConnected := false, isConnecting := false }
  if code ≠ 1000 then scheduleReconnect s1 else s1

/-- `send` (part_022 lines 273–290).  `transportOk` stands for whether
`socket.send` succeeds (its `try` does not throw).  When not connected the
message is pushed onto the in-memory queue, `connect()` is invoked, and
`false` is returned; on a transport failure the message is queued and
`false` is returned. -/
def send (m : String) (transportOk : Bool) (s : WSState) : Bool × WSState :=
  if !s.isConnected then
    (false, connect { s with messageQueue := s.messageQueue ++ [m] })
  else if transportOk then (true, s)
  else (false, { s with messageQueue := s.messageQueue ++ [m] })

/-- `disconnect` (part_022 lines 305–325): clear the ping interval and the
reconnect timer (nulling both fields), close and drop the socket, and reset
both connection flags. -/
def disconnect (s : WSState) : WSState :=
  let s1 := if s.pingIntervalActive then { s with pingIntervalActive := false } else s
  let s2 := if s1.reconnectHandleStored then
              { clearReconnectTimeout s1 with reconnectHandleStored := false }
            else s1
  let s3 := if s2.socketExists then { s2 with socketExists := false } else s2
  { s3 with isConnected := false, isConnecting := false }

/-- `startPingInterval` (part_022 lines 230–240): one keepalive interval. -/
def startPingInterval (s : WSState) : WSState :=
  { s with pingIntervalActive := true }

/-- The stored reconnect timer fires: it is consumed and `connect()` runs. -/
def timerFires (s : WSState) : WSState :=
  if s.reconnectHandleLive then
    connect { s with reconnectHandleLive := false, liveTimers := s.liveTimers - 1 }
  else s

/-- `n` consecutive invocations of `scheduleReconnect` starting from the
freshly constructed service — the run of consecutive failed reconnect
attempts. -/
def schedRun : Nat → WSState
  | 0 => initialWS
  | n + 1 => scheduleReconnect (schedRun n)

/-- Timer bookkeeping invariant: the number of live reconnect timers is
exactly what the stored handle accounts for, and a live handle is a stored
handle. -/
def WSInv (s : WSState) : Prop :=
  s.liveTimers = (if s.reconnectHandleLive then 1 else 0) ∧
  (s.reconnectHandleLive = true → s.reconnectHandleStored = true)

instance (s : WSState) : Decidable (WSInv s) := by
  unfold WSInv; infer_instance

/-- One event-loop step of the service: any public method or timer/transport
event may run. -/
inductive WSStep : WSState → WSState → Prop where
  | connect (s : WSState) : WSStep s (connect s)
  | handleOpen (s : WSState) : WSStep s (handleOpen s).1
  | handleClose (code : Nat) (s : WSState) : WSStep s (handleClose code s)
  | send (m : String) (ok : Bool) (s : WSState) : WSStep s (send m ok s).2
  | disconnect (s : WSState) : WSStep s (disconnect s)
  | startPingInterval (s : WSState) : WSStep s (startPingInterval s)
  | timerFires (s : WSState) : WSStep s (timerFires s)
  | scheduleReconnect (s : WSState) : WSStep s (scheduleReconnect s)

/-- States the service can reach from its constructor. -/
inductive ReachableWS : WSState → Prop where
  | init : ReachableWS initialWS
  | step {s s' : WSState} : ReachableWS s → WSStep s s' → ReachableWS s'

end WS

namespace App

/-- A pending outbox envelope as stored by `AppProvider` (src/unnamed/
part_022): the offline branch of `sendAudioToServer` pushes
`{audioBase64, transcription, timestamp, messageId}` and the offline branch
of `sendTextToServer` pushes `{text, isText: true, timestamp, messageId}`. -/
inductive PendingMsg where
  | audio (audioBase64 transcription : String) (timestamp : Nat) (messageId : String)
  | text (t : String) (timestamp : Nat) (messageId : String)
deriving DecidableEq, Repr

/-- The `messageId` field common to both envelope shapes. -/
def PendingMsg.msgId : PendingMsg → String
  | .audio _ _ _ i => i
  | .text _ _ i => i

/-- A conversation entry created by `addMessage` (part_022 lines 581–592). -/
structure ChatMsg where
  id : String
  text : String
  isUser : Bool
  type : String
deriving DecidableEq, Repr

/-- State of `AppProvider` plus the slice of the Persistent Store it uses.
`storePending` is the value under `STORAGE_KEYS.PENDING_MESSAGES`
(src/src/utils/storage.js `savePendingMessages`/`loadPendingMessages`).
`sendOutcomes` is the environment's stream of results the hook's
`sendMessage` will return, consumed one per call; `sendLog` records each
`sendMessage` call as `(messageId, result)` in call order. -/
structure AppState where
  wsConnected : Bool := false
  pendingMessages : List PendingMsg := []
  messages : List ChatMsg := []
  storePending : List PendingMsg := []
  sendLog : List (String × Bool) := []
  sendOutcomes : List Bool := []
deriving DecidableEq, Repr

/-- The provider state after mount, before any user action. -/
def initialApp : AppState := {}

/-- Consume the next `sendMessage` result from the environment (defaulting
to `true` when the stream is exhausted). -/
def takeOutcome (s : AppState) : Bool × AppState :=
  match s.sendOutcomes with
  | [] => (true, s)
  | b :: rest => (b, { s with sendOutcomes := rest })

/-- `addMessage` (part_022 lines 581–592): append one conversation entry. -/
def addMessage (s : AppState) (text : String) (isUser : Bool)
    (type : String) (id : String) : AppState :=
  { s with messages := s.messages ++ [⟨id, text, isUser, type⟩] }

/-- The `useEffect` at part_022 lines 491–493: every change of
`pendingMessages` is followed by `storage.savePendingMessages`, which
writes the whole queue under `PENDING_MESSAGES`. -/
def persistPending (s : AppState) : AppState :=
  { s with storePending := s.pendingMessages }

/-- `setPendingMessages` followed by the save effect. -/
def setPendingMessages (s : AppState) (l : List PendingMsg) : AppState :=
  persistPending { s with pendingMessages := l }

/-- Record one `sendMessage(...)` call whose payload carries `messageId = id`;
the boolean result comes from the environment and is returned to the caller
alongside the new state. -/
def callSendMessage (s : AppState) (id : String) : Bool × AppState :=
  let p := takeOutcome s
  (p.1, { p.2 with sendLog := p.2.sendLog ++ [(id, p.1)] })

/-- `sendTextToServer` (part_022 lines 654–687): append the optimistic user
entry; when `wsConnected`, call `sendMessage` (result unused); otherwise
push a text envelope onto `pendingMessages` (persisted by the save effect)
and append the offline system entry (its id is `Date.now().toString()`). -/
def sendTextToServer (s : AppState) (text : String) (now : Nat)
    (id : String) : AppState :=
  let s1 := addMessage s text true "normal" id
  if s1.wsConnected then
    (callSendMessage s1 id).2
  else
    let s2 := setPendingMessages s1 (s1.pendingMessages ++ [.text text now id])
    addMessage s2 "Im currently offline. Ill process your message when I reconnect."
      false "system" (toString now)

/-- `sendAudioToServer` (part_022 lines 601–646): same queue logic as
`sendTextToServer`, with the audio envelope shape; the offline branch also
rewrites the optimistic user entry's text. -/
def sendAudioToServer (s : AppState) (audioBase64 transcription : String)
    (now : Nat) (id : String) : AppState :=
  let displayText := if transcription ≠ "" then transcription else "Listening..."
  let s1 := addMessage s displayText true "normal" id
  if s1.wsConnected then
    (callSendMessage s1 id).2
  else
    let s2 := setPendingMessages s1
      (s1.pendingMessages ++ [.audio audioBase64 transcription now id])
    let s3 := { s2 with messages := s2.messages.map fun m =>
      if m.id = id then
        { m with text := if transcription ≠ "" then transcription
                         else "Message saved for when connection is restored" }
      else m }
    addMessage s3 "Im currently offline. Ill process your message when I reconnect."
      false "system" (toString now)

/-- `processPendingMessages` (part_022 lines 692–728): when connected and
the queue is non-empty, append the "Processing your offline messages..."
system entry, destructure the queue into head and tail, `setPendingMessages`
to the tail (dequeue happens here, before the send), then call
`sendMessage` for the head — its boolean result is discarded. -/
def processPendingMessages (now : Nat) (s : AppState) : AppState :=
  if !s.wsConnected || s.pendingMessages.isEmpty then s
  else
    match s.pendingMessages with
    | [] => s
    | firstPending :: remainingPending =>
      let s1 := addMessage s "Processing your offline messages..." false "system"
        (toString now)
      let s2 := setPendingMessages s1 remainingPending
      (callSendMessage s2 firstPending.msgId).2

/-- The replay loop produced by the `useEffect` at part_022 lines 566–570:
`processPendingMessages` re-fires while `wsConnected` and the queue is
non-empty (each invocation dequeues exactly one envelope). -/
def replayAll (now : Nat) (s : AppState) : AppState :=
  if s.wsConnected = true ∧ s.pendingMessages ≠ [] then
    replayAll now (processPendingMessages now s)
  else s
termination_by s.pendingMessages.length
decreasing_by
  rename_i h
  obtain ⟨hc, hne⟩ := h
  unfold processPendingMessages
  cases hq : s.pendingMessages with
  | nil => exact absurd hq hne
  | cons a l =>
    simp [hc, hq, addMessage, setPendingMessages, persistPending, callSendMessage,
      takeOutcome]
    cases s.sendOutcomes <;> simp

/-- A process restart followed by the `AppProvider` remount protocol
(part_022 lines 439–493).  The durable store survives the restart and the
provider state is rebuilt fresh.  React runs the mount effects in
declaration order: the load effect (line 439) suspends at the first `await`
inside `loadSettings` (the settings `getItem`), after which the save
effects run synchronously — in particular the `savePendingMessages` effect
(lines 491–493) issues a store write of the initial empty `pendingMessages`.
AsyncStorage serves requests in FIFO order, and `loadPendingMessages`'s
read (line 455) is issued only after the earlier loads of the effect
resolve, hence after that write: the read sees the already-overwritten
store. -/
def remountApp (s : AppState) : AppState :=
  let mounted := { initialApp with storePending := s.storePending }
  let afterSave := persistPending mounted
  { afterSave with pendingMessages := afterSave.storePending }

end App

namespace Home

/-- The slice of `HomeScreen` state (src/unnamed/part_020) that the two
auto-listen effects read: `settings.autoListen`, the busy flags
(`isProcessingAudio`, `isSpeaking`, `isRecording`), the local `isListening`
flag, and the gating inputs `wsConnected`, `isBluetoothEnabled`,
`connectedDevice` (truthiness of the connected-device object). -/
structure HomeState where
  autoListen : Bool
  isProcessingAudio : Bool
  isSpeaking : Bool
  isRecording : Bool
  isListening : Bool
  wsConnected : Bool
  isBluetoothEnabled : Bool
  connectedDevice : Bool
deriving DecidableEq, Repr

/-- Condition of the effect at part_020 lines 57–65 ("Handle auto-listening
after AI response"): when it holds, a 1s timer is set whose callback
`handleStartRecording` starts capture (its own guard
`isRecording || isProcessingAudio || isSpeaking` re-checks only the busy
flags, part_020 line 77). -/
def captureAutoStarts (s : HomeState) : Bool :=
  s.autoListen && !s.isProcessingAudio && !s.isSpeaking && !s.isRecording &&
    s.isListening

/-- The effect at part_020 lines 68–72 ("Start listening when auto-listen is
enabled"): sets `isListening` when auto-listen is on, listening is off, and
the socket, the adapter and a connected device are all present. -/
def startListeningEffect (s : HomeState) : HomeState :=
  if s.autoListen && !s.isListening && s.wsConnected && s.isBluetoothEnabled &&
      s.connectedDevice then
    { s with isListening := true }
  else s

/-- The WebSocket closes: the context re-renders `HomeScreen` with
`wsConnected = false`; no effect of the screen resets `isListening`. -/
def wsDrops (s : HomeState) : HomeState :=
  { s with wsConnected := false }

/-- A fully-connected idle screen with auto-listen enabled. -/
def connectedIdle : HomeState :=
  { autoListen := true, isProcessingAudio := false, isSpeaking := false,
    isRecording := false, isListening := false, wsConnected := true,
    isBluetoothEnabled := true, connectedDevice := true }

end Home

namespace BT

/-- A record of `savedDevices` in `BluetoothContext`
(src/src/context/BluetoothContext.js): the persisted history entry with the
source's boolean `lastConnected` flag. -/
structure SavedDevice where
  id : String
  name : String
  lastConnected : Bool
deriving DecidableEq, Repr

/-- The history update on the success path of `connectToDevice`
(BluetoothContext.js lines 147–165): map every record's `lastConnected`
flag to `id === device.id`, then push the device (flagged `true`) if it was
absent from `savedDevices`. -/
def updateSavedDevicesOnConnect (savedDevices : List SavedDevice)
    (device : SavedDevice) : List SavedDevice :=
  let updated := savedDevices.map fun d => { d with lastConnected := d.id = device.id }
  if savedDevices.any fun d => d.id = device.id then updated
  else updated ++ [{ device with lastConnected := true }]

/-- Provider-level Bluetooth connection state names used by
`BluetoothContext` (`setConnectionState` string values). -/
inductive BtConnState where
  | disconnected
  | connecting
  | connected
  | error
deriving DecidableEq, Repr

/-- The provider state touched by `connectToDevice`'s retry logic. -/
structure BtState where
  connectAttempts : Nat := 0
  connectionState : BtConnState := .disconnected
  retriesScheduled : Nat := 0
deriving DecidableEq, Repr

/-- The provider state at mount. -/
def initialBt : BtState := {}

/-- One failing invocation of the `connectToDevice` closure
(BluetoothContext.js lines 140–186).  `captured` is the `connectAttempts`
value the closure captured at its creating render: the retry arrow
`() => connectToDevice(device)` scheduled in the catch block calls the very
closure that scheduled it, so `captured` is unchanged along the whole retry
chain even though `setConnectAttempts(prev => prev + 1)` keeps incrementing
the live state.  Returns the new state and whether another retry was
scheduled (`captured < 3`, the guard at line 177). -/
def connectToDeviceFail (captured : Nat) (s : BtState) : BtState × Bool :=
  let s1 := { s with connectionState := .connecting,
                     connectAttempts := s.connectAttempts + 1 }
  let s2 := { s1 with connectionState := .error }
  if captured < 3 then
    ({ s2 with retriesScheduled := s2.retriesScheduled + 1 }, true)
  else
    ({ s2 with connectAttempts := 0 }, false)

/-- `n` consecutive failing invocations of the same `connectToDevice`
closure (each one scheduled by its predecessor); the boolean records
whether the chain is still scheduled to run again. -/
def connectRetryRun (captured : Nat) (s : BtState) : Nat → BtState × Bool
  | 0 => (s, true)
  | n + 1 =>
    let p := connectRetryRun captured s n
    if p.2 then connectToDeviceFail captured p.1 else (p.1, false)

end BT

/-! ### Helper lemmas about the socket service -/

theorem scheduleReconnect_step (s : WS.WSState) (h1 : s.reconnectDelay = 2000)
    (h2 : s.reconnectAttempts < WS.maxReconnectAttempts) :
    (WS.scheduleReconnect s).reconnectAttempts = s.reconnectAttempts + 1 ∧
    (WS.scheduleReconnect s).reconnectDelay = 2000 ∧
    (WS.scheduleReconnect s).scheduledLog =
      s.scheduledLog ++ [WS.reconnectDelayFormula (s.reconnectAttempts + 1)] ∧
    (WS.scheduleReconnect s).reconnectTimerDelay =
      WS.reconnectDelayFormula (s.reconnectAttempts + 1) := by
  have h3 : (WS.maxReconnectAttempts ≤ s.reconnectAttempts) = False :=
    eq_false (Nat.not_le.mpr h2)
  unfold WS.scheduleReconnect WS.clearReconnectTimeout WS.reconnectDelayFormula
  dsimp only
  split_ifs <;> simp_all [h3]

theorem schedRun_spec (k : Nat) (hk : k ≤ WS.maxReconnectAttempts) :
    (WS.schedRun k).reconnectAttempts = k ∧
    (WS.schedRun k).reconnectDelay = 2000 ∧
    (WS.schedRun k).scheduledLog =
      (List.range k).map (fun i => WS.reconnectDelayFormula (i + 1)) := by
  induction k with
  | zero => simp [WS.schedRun, WS.initialWS]
  | succ n ih =>
    obtain ⟨ha, hd, hl⟩ := ih (Nat.le_of_succ_le hk)
    have hlt : (WS.schedRun n).reconnectAttempts < WS.maxReconnectAttempts := by
      rw [ha]; exact hk
    obtain ⟨p1, p2, p3, p4⟩ := scheduleReconnect_step _ hd hlt
    refine ⟨?_, ?_, ?_⟩
    · show (WS.scheduleReconnect (WS.schedRun n)).reconnectAttempts = n + 1
      rw [p1, ha]
    · exact p2
    · show (WS.scheduleReconnect (WS.schedRun n)).scheduledLog = _
      rw [p3, ha, hl, List.range_succ, List.map_append, List.map_singleton]

theorem reconnectDelayFormula_mono {n m : Nat} (h : n ≤ m) :
    WS.reconnectDelayFormula n ≤ WS.reconnectDelayFormula m := by
  unfold WS.reconnectDelayFormula
  refine min_le_min ?_ le_rfl
  refine mul_le_mul_of_nonneg_left ?_ (by norm_num)
  exact pow_le_pow_right₀ (by norm_num) (Nat.sub_le_sub_right h 1)

theorem handleOpen_resets (s : WS.WSState) :
    ((WS.handleOpen s).1).reconnectAttempts = 0 ∧
    ((WS.handleOpen s).1).reconnectDelay = 2000 := by
  cases hq : s.messageQueue <;> simp [WS.handleOpen, WS.processMessageQueue, hq]

theorem wsInv_clearReconnectTimeout {s : WS.WSState} (h : WS.WSInv s) :
    WS.WSInv (WS.clearReconnectTimeout s) := by
  obtain ⟨h1, h2⟩ := h
  unfold WS.WSInv WS.clearReconnectTimeout
  cases hl : s.reconnectHandleLive <;> cases hs : s.reconnectHandleStored <;>
    simp_all

theorem clearReconnectTimeout_live {s : WS.WSState} (h : WS.WSInv s) :
    (WS.clearReconnectTimeout s).reconnectHandleLive = false ∧
    (WS.clearReconnectTimeout s).liveTimers = 0 := by
  obtain ⟨h1, h2⟩ := h
  unfold WS.clearReconnectTimeout
  cases hl : s.reconnectHandleLive <;> cases hs : s.reconnectHandleStored <;>
    simp_all

theorem wsInv_scheduleReconnect {s : WS.WSState} (h : WS.WSInv s) :
    WS.WSInv (WS.scheduleReconnect s) := by
  have hc := wsInv_clearReconnectTimeout h
  obtain ⟨hl, ht⟩ := clearReconnectTimeout_live h
  unfold WS.scheduleReconnect
  dsimp only
  split_ifs with hmax
  · exact hc
  · exact ⟨by simp [ht], by simp⟩

theorem scheduleReconnect_liveTimers {s : WS.WSState} (h : WS.WSInv s)
    (h2 : s.reconnectAttempts < WS.maxReconnectAttempts) :
    (WS.scheduleReconnect s).liveTimers = 1 := by
  obtain ⟨hl, ht⟩ := clearReconnectTimeout_live h
  have h3 : ¬ WS.maxReconnectAttempts ≤ (WS.clearReconnectTimeout s).reconnectAttempts := by
    have : (WS.clearReconnectTimeout s).reconnectAttempts = s.reconnectAttempts := by
      unfold WS.clearReconnectTimeout; split_ifs <;> rfl
    rw [this]; exact Nat.not_le.mpr h2
  unfold WS.scheduleReconnect
  dsimp only
  rw [if_neg h3]
  simp [ht]

theorem wsInv_connect {s : WS.WSState} (h : WS.WSInv s) :
    WS.WSInv (WS.connect s) := by
  unfold WS.WSInv WS.connect at *
  split_ifs <;> simp_all

theorem wsInv_handleOpen {s : WS.WSState} (h : WS.WSInv s) :
    WS.WSInv (WS.handleOpen s).1 := by
  unfold WS.WSInv WS.handleOpen WS.processMessageQueue at *
  dsimp only
  split_ifs <;> simp_all

theorem wsInv_handleClose {s : WS.WSState} (code : Nat) (h : WS.WSInv s) :
    WS.WSInv (WS.handleClose code s) := by
  unfold WS.handleClose
  split_ifs
  · exact wsInv_scheduleReconnect (by exact h)
  · exact h

theorem wsInv_send {s : WS.WSState} (m : String) (ok : Bool) (h : WS.WSInv s) :
    WS.WSInv (WS.send m ok s).2 := by
  unfold WS.send
  split_ifs
  · exact wsInv_connect (by exact h)
  · exact h
  · exact h

theorem wsInv_disconnect {s : WS.WSState} (h : WS.WSInv s) :
    WS.WSInv (WS.disconnect s) := by
  obtain ⟨h1, h2⟩ := h
  unfold WS.WSInv WS.disconnect WS.clearReconnectTimeout
  dsimp only
  cases hl : s.reconnectHandleLive <;> cases hs : s.reconnectHandleStored <;>
    cases hp : s.pingIntervalActive <;> cases hx : s.socketExists <;> simp_all

theorem disconnect_liveTimers {s : WS.WSState} (h : WS.WSInv s) :
    (WS.disconnect s).liveTimers = 0 := by
  obtain ⟨h1, h2⟩ := h
  unfold WS.disconnect WS.clearReconnectTimeout
  dsimp only
  cases hl : s.reconnectHandleLive <;> cases hs : s.reconnectHandleStored <;>
    cases hp : s.pingIntervalActive <;> cases hx : s.socketExists <;> simp_all

theorem wsInv_timerFires {s : WS.WSState} (h : WS.WSInv s) :
    WS.WSInv (WS.timerFires s) := by
  obtain ⟨h1, h2⟩ := h
  unfold WS.timerFires
  split_ifs with hl
  · exact wsInv_connect ⟨by simp [hl] at h1; simp [h1], by simp⟩
  · exact ⟨h1, h2⟩

theorem wsInv_startPingInterval {s : WS.WSState} (h : WS.WSInv s) :
    WS.WSInv (WS.startPingInterval s) := by
  unfold WS.WSInv WS.startPingInterval at *
  simpa using h

theorem wsInv_step {s s' : WS.WSState} (h : WS.WSInv s) (st : WS.WSStep s s') :
    WS.WSInv s' := by
  cases st with
  | connect s => exact wsInv_connect h
  | handleOpen s => exact wsInv_handleOpen h
  | handleClose code s => exact wsInv_handleClose code h
  | send m ok s => exact wsInv_send m ok h
  | disconnect s => exact wsInv_disconnect h
  | startPingInterval s => exact wsInv_startPingInterval h
  | timerFires s => exact wsInv_timerFires h
  | scheduleReconnect s => exact wsInv_scheduleReconnect h

theorem wsInv_initial : WS.WSInv WS.initialWS := by
  constructor <;> simp [WS.initialWS, WS.WSInv]

theorem reachableWS_inv {s : WS.WSState} (h : WS.ReachableWS s) : WS.WSInv s := by
  induction h with
  | init => exact wsInv_initial
  | step _ st ih => exact wsInv_step ih st

/-- Claim C4: in every run of consecutive failed reconnect attempts, the
delay scheduled before attempt `n` is `min(2000 · 1.5^(n−1), 30000)` —
non-decreasing in `n` up to the cap — and a successful open resets the
attempt counter to 0, so the next failure is scheduled with the attempt-1
delay regardless of the prior attempt count. -/
theorem c4_backoff_invariant :
    (∀ k, k ≤ WS.maxReconnectAttempts →
      (WS.schedRun k).scheduledLog =
        (List.range k).map (fun i => WS.reconnectDelayFormula (i + 1)) ∧
      (WS.schedRun k).reconnectAttempts = k) ∧
    (∀ n m : Nat, n ≤ m →
      WS.reconnectDelayFormula n ≤ WS.reconnectDelayFormula m) ∧
    (∀ s : WS.WSState, ((WS.handleOpen s).1).reconnectAttempts = 0 ∧
      (WS.scheduleReconnect (WS.handleOpen s).1).reconnectTimerDelay =
        WS.reconnectDelayFormula 1) := by
  refine ⟨fun k hk => ?_, fun n m h => reconnectDelayFormula_mono h, fun s => ?_⟩
  · obtain ⟨h1, _, h3⟩ := schedRun_spec k hk
    exact ⟨h3, h1⟩
  · obtain ⟨h1, h2⟩ := handleOpen_resets s
    have h3 : ((WS.handleOpen s).1).reconnectAttempts < WS.maxReconnectAttempts := by
      rw [h1]; decide
    obtain ⟨_, _, _, p4⟩ := scheduleReconnect_step _ h2 h3
    refine ⟨h1, ?_⟩
    rw [p4, h1]

/-- Concrete instance of C4: three failed attempts schedule the delays
2000 ms, 3000 ms, 4500 ms, and the formula is monotone from attempt 2 to
attempt 3. -/
theorem c4_backoff_invariant_witness :
    (WS.schedRun 3).scheduledLog =
      [WS.reconnectDelayFormula 1, WS.reconnectDelayFormula 2,
        WS.reconnectDelayFormula 3] ∧
    WS.reconnectDelayFormula 2 ≤ WS.reconnectDelayFormula 3 ∧
    ((WS.handleOpen (WS.schedRun 3)).1).reconnectAttempts = 0 := by
  refine ⟨?_, c4_backoff_invariant.2.1 2 3 (by decide), ?_⟩
  · have h := (c4_backoff_invariant.1 3 (by decide)).1
    simpa [List.range_succ] using h
  · exact (c4_backoff_invariant.2.2 (WS.schedRun 3)).1

theorem disconnect_fields (s : WS.WSState) :
    (WS.disconnect s).pingIntervalActive = false ∧
    (WS.disconnect s).reconnectHandleStored = false ∧
    (WS.disconnect s).socketExists = false ∧
    (WS.disconnect s).isConnected = false ∧
    (WS.disconnect s).isConnecting = false := by
  obtain ⟨c1, c2, st, li, lt, ra, rd, rt, sl, mq, se, pi, sc⟩ := s
  cases st <;> cases se <;> cases pi <;>
    simp [WS.disconnect, WS.clearReconnectTimeout]

theorem disconnect_clean (t : WS.WSState) (hp : t.pingIntervalActive = false)
    (hs : t.reconnectHandleStored = false) (hx : t.socketExists = false)
    (hc : t.isConnected = false) (hg : t.isConnecting = false) :
    WS.disconnect t = t := by
  cases t
  unfold WS.disconnect WS.clearReconnectTimeout
  dsimp only at *
  subst hp hs hx hc hg
  simp

/-- Claim C5, counterexample to the re-entrant-open conjunct: from the fresh
service, a non-graceful close (code 1006) leaves exactly one reconnect
timer pending; a subsequent re-entrant `connect()` leaves that timer
pending (`liveTimers` still 1, the stored handle still live) although the
claim says the pending timer is cancelled. -/
theorem c5_counterexample :
    (WS.connect (WS.handleClose 1006 WS.initialWS)).liveTimers = 1 ∧
    (WS.connect (WS.handleClose 1006 WS.initialWS)).reconnectHandleLive = true ∧
    (WS.connect (WS.handleClose 1006 WS.initialWS)).isConnecting = true := by
  refine ⟨rfl, rfl, rfl⟩

/-- Claim C5 as amended: after a non-graceful close with the attempt count
below the maximum, exactly one reconnect timer is pending; after a graceful
local `disconnect()` and its code-1000 close event, none is pending; every
reachable state has at most one pending reconnect timer; and a re-entrant
`connect()` while a timer is pending does NOT cancel it (the timer stays
live) but does attempt connection immediately when not already
connected/connecting. -/
theorem c5_reconnect_scheduling :
    (∀ (s : WS.WSState) (code : Nat), WS.WSInv s →
      s.reconnectAttempts < WS.maxReconnectAttempts → code ≠ 1000 →
      (WS.handleClose code s).liveTimers = 1) ∧
    (∀ s : WS.WSState, WS.WSInv s →
      (WS.handleClose 1000 (WS.disconnect s)).liveTimers = 0) ∧
    (∀ s : WS.WSState, WS.ReachableWS s → s.liveTimers ≤ 1) ∧
    (∀ s : WS.WSState,
      (WS.connect s).liveTimers = s.liveTimers ∧
      (WS.connect s).reconnectHandleLive = s.reconnectHandleLive ∧
      (s.isConnected = false → s.isConnecting = false →
        (WS.connect s).isConnecting = true)) := by
  refine ⟨fun s code hInv hLt hCode => ?_, fun s hInv => ?_, fun s hR => ?_,
    fun s => ?_⟩
  · unfold WS.handleClose
    rw [if_pos hCode]
    exact scheduleReconnect_liveTimers ⟨hInv.1, hInv.2⟩ hLt
  · unfold WS.handleClose
    rw [if_neg (by simp)]
    exact disconnect_liveTimers hInv
  · have hInv := reachableWS_inv hR
    rw [hInv.1]
    split_ifs <;> simp
  · refine ⟨?_, ?_, fun hA hB => ?_⟩
    · unfold WS.connect; split_ifs <;> rfl
    · unfold WS.connect; split_ifs <;> rfl
    · unfold WS.connect
      rw [if_neg (by simp [hA, hB])]

/-- Concrete instance of C5: from the fresh service, a non-graceful close
leaves exactly one pending timer, a graceful disconnect leaves none, and
the fresh state has at most one pending timer. -/
theorem c5_reconnect_scheduling_witness :
    (WS.handleClose 1006 WS.initialWS).liveTimers = 1 ∧
    (WS.handleClose 1000 (WS.disconnect WS.initialWS)).liveTimers = 0 ∧
    WS.initialWS.liveTimers ≤ 1 ∧
    (WS.connect WS.initialWS).isConnecting = true :=
  ⟨c5_reconnect_scheduling.1 WS.initialWS 1006 wsInv_initial (by decide) (by decide),
   c5_reconnect_scheduling.2.1 WS.initialWS wsInv_initial,
   c5_reconnect_scheduling.2.2.1 WS.initialWS WS.ReachableWS.init,
   (c5_reconnect_scheduling.2.2.2 WS.initialWS).2.2 rfl rfl⟩

/-- Claim C7: `connect` is idempotent — a second `connect()` with no
intervening close changes nothing, and from an idle state the pair of calls
creates exactly one socket (hence exactly one Connecting→Open transition is
possible) — and `disconnect` on an already-disconnected service is a no-op
(and, being a total function of the state, never throws). -/
theorem c7_idempotent_open_close :
    (∀ s : WS.WSState, WS.connect (WS.connect s) = WS.connect s) ∧
    (∀ s : WS.WSState, s.isConnected = false → s.isConnecting = false →
      (WS.connect s).socketsCreated = s.socketsCreated + 1 ∧
      (WS.connect (WS.connect s)).socketsCreated = s.socketsCreated + 1 ∧
      (WS.connect s).isConnecting = true) ∧
    (∀ s : WS.WSState, WS.disconnect (WS.disconnect s) = WS.disconnect s) := by
  refine ⟨fun s => ?_, fun s h1 h2 => ?_, fun s => ?_⟩
  · unfold WS.connect
    split_ifs <;> simp_all
  · unfold WS.connect
    split_ifs <;> simp_all
  · obtain ⟨p1, p2, p3, p4, p5⟩ := disconnect_fields s
    exact disconnect_clean _ p1 p2 p3 p4 p5

/-- Concrete instance of C7: from the fresh (idle) service, two consecutive
`connect()` calls create exactly one socket. -/
theorem c7_idempotent_open_close_witness :
    (WS.connect WS.initialWS).socketsCreated = WS.initialWS.socketsCreated + 1 ∧
    (WS.connect (WS.connect WS.initialWS)).socketsCreated =
      WS.initialWS.socketsCreated + 1 :=
  ⟨(c7_idempotent_open_close.2.1 WS.initialWS rfl rfl).1,
   (c7_idempotent_open_close.2.1 WS.initialWS rfl rfl).2.1⟩

/-- Claim C10: a `send` while the socket is not connected returns `false`,
appends the message to the internal in-memory `messageQueue` and delegates
a connection attempt to `connect()`; on a successful open the whole
internal queue is drained in FIFO order strictly before the `onConnect`
callback fires, leaving the queue empty; and a process restart rebuilds the
service from its constructor with an empty queue (the queue is nowhere
persisted), so such messages do not survive a restart. -/
theorem c10_internal_message_queue :
    (∀ (s : WS.WSState) (m : String) (ok : Bool), s.isConnected = false →
      WS.send m ok s =
        (false, WS.connect { s with messageQueue := s.messageQueue ++ [m] })) ∧
    (∀ s : WS.WSState,
      (WS.handleOpen s).2 =
        s.messageQueue.map WS.WSEvent.sentMsg ++ [WS.WSEvent.connectCb] ∧
      ((WS.handleOpen s).1).messageQueue = []) ∧
    WS.restartWS.messageQueue = [] := by
  refine ⟨fun s m ok h => ?_, fun s => ?_, rfl⟩
  · unfold WS.send
    rw [if_pos (by simp [h])]
  · cases hq : s.messageQueue <;>
      simp [WS.handleOpen, WS.processMessageQueue, hq]

/-- Concrete instance of C10: sending on the fresh (disconnected) service
returns false and queues the message; the next successful open drains it
before the connect callback. -/
theorem c10_internal_message_queue_witness :
    WS.send "hello" true WS.initialWS =
      (false, WS.connect { WS.initialWS with messageQueue := ["hello"] }) ∧
    (WS.handleOpen (WS.send "hello" true WS.initialWS).2).2 =
      [WS.WSEvent.sentMsg "hello", WS.WSEvent.connectCb] := by
  refine ⟨c10_internal_message_queue.1 WS.initialWS "hello" true rfl, ?_⟩
  have h := (c10_internal_message_queue.2.1 (WS.send "hello" true WS.initialWS).2).1
  simpa using h

/-! ### Helper lemmas about the AppProvider outbox -/

theorem sendTextToServer_connected (s : App.AppState) (text : String)
    (now : Nat) (id : String) (h : s.wsConnected = true) :
    (App.sendTextToServer s text now id).pendingMessages = s.pendingMessages ∧
    (App.sendTextToServer s text now id).storePending = s.storePending := by
  unfold App.sendTextToServer App.addMessage App.callSendMessage App.takeOutcome
  rw [if_pos (by simpa using h)]
  cases s.sendOutcomes <;> simp

theorem sendTextToServer_offline (s : App.AppState) (text : String)
    (now : Nat) (id : String) (h : s.wsConnected = false) :
    (App.sendTextToServer s text now id).pendingMessages =
      s.pendingMessages ++ [App.PendingMsg.text text now id] ∧
    (App.sendTextToServer s text now id).storePending =
      s.pendingMessages ++ [App.PendingMsg.text text now id] := by
  unfold App.sendTextToServer App.addMessage App.setPendingMessages
    App.persistPending
  rw [if_neg (by simp [h])]
  simp

theorem sendAudioToServer_connected (s : App.AppState) (aB tr : String)
    (now : Nat) (id : String) (h : s.wsConnected = true) :
    (App.sendAudioToServer s aB tr now id).pendingMessages = s.pendingMessages ∧
    (App.sendAudioToServer s aB tr now id).storePending = s.storePending := by
  unfold App.sendAudioToServer App.addMessage App.callSendMessage App.takeOutcome
  rw [if_pos (by simpa using h)]
  cases s.sendOutcomes <;> simp

theorem sendAudioToServer_offline (s : App.AppState) (aB tr : String)
    (now : Nat) (id : String) (h : s.wsConnected = false) :
    (App.sendAudioToServer s aB tr now id).pendingMessages =
      s.pendingMessages ++ [App.PendingMsg.audio aB tr now id] ∧
    (App.sendAudioToServer s aB tr now id).storePending =
      s.pendingMessages ++ [App.PendingMsg.audio aB tr now id] := by
  unfold App.sendAudioToServer App.addMessage App.setPendingMessages
    App.persistPending
  rw [if_neg (by simp [h])]
  simp

theorem processPendingMessages_step (now : Nat) (s : App.AppState)
    (hc : s.wsConnected = true) (a : App.PendingMsg) (l : List App.PendingMsg)
    (hq : s.pendingMessages = a :: l) :
    (App.processPendingMessages now s).pendingMessages = l ∧
    (App.processPendingMessages now s).sendLog.map Prod.fst =
      s.sendLog.map Prod.fst ++ [a.msgId] ∧
    (App.processPendingMessages now s).wsConnected = true := by
  unfold App.processPendingMessages App.addMessage App.setPendingMessages
    App.persistPending App.callSendMessage App.takeOutcome
  rw [if_neg (by simp [hc, hq])]
  rw [hq]
  dsimp only
  cases s.sendOutcomes <;> simp [hc]

theorem replayAll_spec (now : Nat) :
    ∀ (n : Nat) (s : App.AppState), s.pendingMessages.length = n →
      s.wsConnected = true →
      (App.replayAll now s).pendingMessages = [] ∧
      (App.replayAll now s).sendLog.map Prod.fst =
        s.sendLog.map Prod.fst ++ s.pendingMessages.map App.PendingMsg.msgId := by
  intro n
  induction n using Nat.strong_induction_on with
  | _ n ih =>
    intro s hlen hc
    cases hq : s.pendingMessages with
    | nil =>
      rw [App.replayAll]
      rw [if_neg (by simp [hq])]
      simp [hq]
    | cons a l =>
      obtain ⟨p1, p2, p3⟩ := processPendingMessages_step now s hc a l hq
      rw [App.replayAll]
      rw [if_pos ⟨hc, by simp [hq]⟩]
      have hlen2 : l.length + 1 = n := by
        rw [hq] at hlen
        simpa using hlen
      have hlt : (App.processPendingMessages now s).pendingMessages.length < n := by
        rw [p1]
        omega
      obtain ⟨r1, r2⟩ := ih _ hlt _ rfl p3
      refine ⟨r1, ?_⟩
      rw [r2, p2, p1]
      simp

/-- Claim C1: the no-loss-across-restart property is the spec's intent but
fails in the code.  The remount protocol wipes the persisted pending queue
— for every pre-restart state, both the reloaded in-memory queue and the
store end up empty — so an envelope enqueued and persisted while offline
(here the concrete text envelope `id1`, shown present in the store before
the restart) is gone after the restart: the mount-time
`savePendingMessages` effect writes the initial empty queue before
`loadPendingMessages`'s read reaches the store. -/
theorem c1_restart_loses_pending_queue :
    (∀ s : App.AppState,
      (App.remountApp s).pendingMessages = [] ∧
      (App.remountApp s).storePending = []) ∧
    (App.sendTextToServer App.initialApp "hello" 5 "id1").storePending =
      [App.PendingMsg.text "hello" 5 "id1"] ∧
    (App.remountApp
      (App.sendTextToServer App.initialApp "hello" 5 "id1")).pendingMessages =
      [] ∧
    (App.remountApp
      (App.sendTextToServer App.initialApp "hello" 5 "id1")).storePending =
      [] :=
  ⟨fun s => ⟨rfl, rfl⟩, rfl, rfl, rfl⟩

/-- Claim C2, counterexample: with the session open, queue `[a]` and the
next `sendMessage` result `false`, one replay step logs the failed send for
`a` yet `a` is dequeued (and the persisted queue emptied) all the same —
refuting both "dequeue only after send returns true" and "a failed replay
send leaves the envelope queued for the next session-open". -/
theorem c2_counterexample :
    (App.processPendingMessages 7
      { wsConnected := true, pendingMessages := [App.PendingMsg.text "hello" 0 "ida"],
        messages := [], storePending := [App.PendingMsg.text "hello" 0 "ida"],
        sendLog := [], sendOutcomes := [false] }).sendLog = [("ida", false)] ∧
    (App.processPendingMessages 7
      { wsConnected := true, pendingMessages := [App.PendingMsg.text "hello" 0 "ida"],
        messages := [], storePending := [App.PendingMsg.text "hello" 0 "ida"],
        sendLog := [], sendOutcomes := [false] }).pendingMessages = [] ∧
    (App.processPendingMessages 7
      { wsConnected := true, pendingMessages := [App.PendingMsg.text "hello" 0 "ida"],
        messages := [], storePending := [App.PendingMsg.text "hello" 0 "ida"],
        sendLog := [], sendOutcomes := [false] }).storePending = [] := by
  refine ⟨rfl, rfl, rfl⟩

/-- Claim C2 as amended: while the session stays open, replay processes the
queue one envelope at a time, oldest first, each envelope dequeued before
its send call and regardless of the send result; the whole queue drains,
every envelope's messageId is handed to `sendMessage` exactly once and in
FIFO order (so none is sent twice when the ids are distinct — in particular
when every send returns true); a false send result does not stop replay. -/
theorem c2_replay_policy (now : Nat) (s : App.AppState)
    (hc : s.wsConnected = true) :
    (App.replayAll now s).pendingMessages = [] ∧
    (App.replayAll now s).sendLog.map Prod.fst =
      s.sendLog.map Prod.fst ++ s.pendingMessages.map App.PendingMsg.msgId ∧
    ((s.pendingMessages.map App.PendingMsg.msgId).Nodup → s.sendLog = [] →
      ((App.replayAll now s).sendLog.map Prod.fst).Nodup) := by
  obtain ⟨r1, r2⟩ := replayAll_spec now s.pendingMessages.length s rfl hc
  refine ⟨r1, r2, fun hnd hempty => ?_⟩
  rw [r2, hempty]
  simpa using hnd

/-- Concrete instance of C2: a three-envelope queue `[a, b, c]` with the
second send failing still drains fully, sending ids in FIFO order with no
duplicates. -/
theorem c2_replay_policy_witness :
    (App.replayAll 0
      { wsConnected := true,
        pendingMessages := [App.PendingMsg.text "ta" 0 "a",
          App.PendingMsg.text "tb" 1 "b", App.PendingMsg.text "tc" 2 "c"],
        messages := [], storePending := [], sendLog := [],
        sendOutcomes := [true, false, true] }).pendingMessages = [] ∧
    (App.replayAll 0
      { wsConnected := true,
        pendingMessages := [App.PendingMsg.text "ta" 0 "a",
          App.PendingMsg.text "tb" 1 "b", App.PendingMsg.text "tc" 2 "c"],
        messages := [], storePending := [], sendLog := [],
        sendOutcomes := [true, false, true] }).sendLog.map Prod.fst =
      ["a", "b", "c"] := by
  have h := c2_replay_policy 0
    { wsConnected := true,
      pendingMessages := [App.PendingMsg.text "ta" 0 "a",
        App.PendingMsg.text "tb" 1 "b", App.PendingMsg.text "tc" 2 "c"],
      messages := [], storePending := [], sendLog := [],
      sendOutcomes := [true, false, true] } rfl
  exact ⟨h.1, by rw [h.2.1]; rfl⟩

/-- Claim C3, counterexample: with the session open and the socket actually
refusing the send (`sendMessage` returns false), the envelope is still not
appended to the pending queue — the failed-send branch of the claim does
not hold in the code, which discards the send result. -/
theorem c3_counterexample :
    (App.sendTextToServer
      { wsConnected := true, pendingMessages := [], messages := [],
        storePending := [], sendLog := [], sendOutcomes := [false] }
      "hello" 0 "id1").sendLog = [("id1", false)] ∧
    (App.sendTextToServer
      { wsConnected := true, pendingMessages := [], messages := [],
        storePending := [], sendLog := [], sendOutcomes := [false] }
      "hello" 0 "id1").pendingMessages = [] ∧
    (App.sendTextToServer
      { wsConnected := true, pendingMessages := [], messages := [],
        storePending := [], sendLog := [], sendOutcomes := [false] }
      "hello" 0 "id1").storePending = [] := by
  refine ⟨rfl, rfl, rfl⟩

/-- Claim C3 as amended: an envelope is queued if and only if the session is
not open at submission time.  When the session is open, `sendMessage` is
called and its result ignored — the envelope is never queued, even on a
failed send; when the session is not open, the envelope is appended to the
pending queue and the queue is persisted.  Holds for both the text and the
audio path. -/
theorem c3_enqueue_and_attempt (s : App.AppState) (text aB tr : String)
    (now : Nat) (id : String) :
    (s.wsConnected = true →
      (App.sendTextToServer s text now id).pendingMessages = s.pendingMessages ∧
      (App.sendTextToServer s text now id).storePending = s.storePending ∧
      (App.sendAudioToServer s aB tr now id).pendingMessages = s.pendingMessages ∧
      (App.sendAudioToServer s aB tr now id).storePending = s.storePending) ∧
    (s.wsConnected = false →
      (App.sendTextToServer s text now id).pendingMessages =
        s.pendingMessages ++ [App.PendingMsg.text text now id] ∧
      (App.sendTextToServer s text now id).storePending =
        s.pendingMessages ++ [App.PendingMsg.text text now id] ∧
      (App.sendAudioToServer s aB tr now id).pendingMessages =
        s.pendingMessages ++ [App.PendingMsg.audio aB tr now id] ∧
      (App.sendAudioToServer s aB tr now id).storePending =
        s.pendingMessages ++ [App.PendingMsg.audio aB tr now id]) := by
  constructor
  · intro h
    obtain ⟨t1, t2⟩ := sendTextToServer_connected s text now id h
    obtain ⟨a1, a2⟩ := sendAudioToServer_connected s aB tr now id h
    exact ⟨t1, t2, a1, a2⟩
  · intro h
    obtain ⟨t1, t2⟩ := sendTextToServer_offline s text now id h
    obtain ⟨a1, a2⟩ := sendAudioToServer_offline s aB tr now id h
    exact ⟨t1, t2, a1, a2⟩

/-- Concrete instance of C3: a text sent while the session is open leaves
the (empty) queue empty; sent while closed, it is appended and persisted. -/
theorem c3_enqueue_and_attempt_witness :
    (App.sendTextToServer
      { App.initialApp with wsConnected := true } "hi" 3 "idw").pendingMessages =
        [] ∧
    (App.sendTextToServer App.initialApp "hi" 3 "idw").pendingMessages =
      [App.PendingMsg.text "hi" 3 "idw"] ∧
    (App.sendTextToServer App.initialApp "hi" 3 "idw").storePending =
      [App.PendingMsg.text "hi" 3 "idw"] := by
  refine ⟨?_, ?_, ?_⟩
  · exact ((c3_enqueue_and_attempt
      { App.initialApp with wsConnected := true } "hi" "" "" 3 "idw").1 rfl).1
  · exact ((c3_enqueue_and_attempt App.initialApp "hi" "" "" 3 "idw").2 rfl).1
  · exact (((c3_enqueue_and_attempt App.initialApp "hi" "" "" 3 "idw").2 rfl).2).1

/-- Claim C6, counterexample: from a fully-connected idle screen, the
listening flag is switched on; the WebSocket then drops (and no effect
resets the flag), after which the auto-listen effect still fires and
capture auto-starts although the session is not open — refuting "making
the session-open condition false prevents capture from auto-starting". -/
theorem c6_counterexample :
    Home.captureAutoStarts
      (Home.wsDrops (Home.startListeningEffect Home.connectedIdle)) = true ∧
    (Home.wsDrops (Home.startListeningEffect Home.connectedIdle)).wsConnected =
      false := by
  refine ⟨rfl, rfl⟩

/-- Claim C6 as amended: capture auto-starts only when auto-listen is
enabled, the system is not busy (not recording, not processing audio, not
speaking) and the listening flag is on; the listening flag is only switched
on while the session is open, Bluetooth is enabled and a peripheral is
connected — but those three conditions are not re-checked at capture time,
so turning them false after the flag is set does not prevent auto-start. -/
theorem c6_auto_listen_gating (s : Home.HomeState) :
    (Home.captureAutoStarts s = true →
      s.autoListen = true ∧ s.isProcessingAudio = false ∧ s.isSpeaking = false ∧
      s.isRecording = false ∧ s.isListening = true) ∧
    ((Home.startListeningEffect s).isListening = true →
      s.isListening = true ∨
      (s.wsConnected = true ∧ s.isBluetoothEnabled = true ∧
        s.connectedDevice = true)) := by
  constructor
  · intro h
    unfold Home.captureAutoStarts at h
    simp only [Bool.and_eq_true, Bool.not_eq_true'] at h
    exact ⟨h.1.1.1.1, h.1.1.1.2, h.1.1.2, h.1.2, h.2⟩
  · intro h
    unfold Home.startListeningEffect at h
    split_ifs at h with hc
    · simp only [Bool.and_eq_true, Bool.not_eq_true'] at hc
      exact Or.inr ⟨hc.1.1.2, hc.1.2, hc.2⟩
    · exact Or.inl h

/-- Concrete instance of C6: a busy-free listening screen may auto-start
capture (whence the busy flags are all off), and the listening flag only
turns on under the full connectivity conjunction. -/
theorem c6_auto_listen_gating_witness :
    ({ autoListen := true, isProcessingAudio := false, isSpeaking := false,
       isRecording := false, isListening := true, wsConnected := true,
       isBluetoothEnabled := true, connectedDevice := true
       : Home.HomeState }).isRecording = false ∧
    (Home.connectedIdle.isListening = true ∨
      (Home.connectedIdle.wsConnected = true ∧
        Home.connectedIdle.isBluetoothEnabled = true ∧
        Home.connectedIdle.connectedDevice = true)) :=
  ⟨((c6_auto_listen_gating
      { autoListen := true, isProcessingAudio := false, isSpeaking := false,
        isRecording := false, isListening := true, wsConnected := true,
        isBluetoothEnabled := true, connectedDevice := true }).1 rfl).2.2.2.1,
   (c6_auto_listen_gating Home.connectedIdle).2 rfl⟩

/-- Claim C8, counterexample: connecting first to device A and then to
device B leaves the persisted history `[A, B]` with A — not the
just-connected B — at the front: the code keeps insertion order and only
flips the boolean `lastConnected` flags, so there is no move-to-front
recency order. -/
theorem c8_counterexample :
    (BT.updateSavedDevicesOnConnect
      (BT.updateSavedDevicesOnConnect [] ⟨"A", "DeviceA", false⟩)
      ⟨"B", "DeviceB", false⟩).map BT.SavedDevice.id = ["A", "B"] ∧
    (BT.updateSavedDevicesOnConnect
      (BT.updateSavedDevicesOnConnect [] ⟨"A", "DeviceA", false⟩)
      ⟨"B", "DeviceB", false⟩).head? = some ⟨"A", "DeviceA", false⟩ := by
  refine ⟨rfl, rfl⟩

/-- Claim C8 as amended: after every successful connect, the persisted
history keeps its insertion order (the connected device is appended at the
back exactly when absent, never moved to the front), and a record's
`lastConnected` flag is true exactly when it is the record of the connected
device; distinct ids stay distinct. -/
theorem updateSavedDevices_ids (devices : List BT.SavedDevice)
    (device : BT.SavedDevice) :
    (BT.updateSavedDevicesOnConnect devices device).map BT.SavedDevice.id =
      devices.map BT.SavedDevice.id ++
        (if devices.any (fun d => d.id = device.id) then [] else [device.id]) := by
  unfold BT.updateSavedDevicesOnConnect
  split_ifs <;> simp [List.map_map, Function.comp]

theorem c8_history_update (devices : List BT.SavedDevice)
    (device : BT.SavedDevice) :
    ((BT.updateSavedDevicesOnConnect devices device).map BT.SavedDevice.id =
      devices.map BT.SavedDevice.id ++
        (if devices.any (fun d => d.id = device.id) then [] else [device.id])) ∧
    (∀ d ∈ BT.updateSavedDevicesOnConnect devices device,
      (d.lastConnected = true ↔ d.id = device.id)) ∧
    ((devices.map BT.SavedDevice.id).Nodup →
      ((BT.updateSavedDevicesOnConnect devices device).map
        BT.SavedDevice.id).Nodup) := by
  refine ⟨updateSavedDevices_ids devices device, ?_, ?_⟩
  · intro d hd
    unfold BT.updateSavedDevicesOnConnect at hd
    split_ifs at hd with hex
    · simp only [List.mem_map] at hd
      obtain ⟨x, -, rfl⟩ := hd
      simp
    · simp only [List.mem_append, List.mem_map, List.mem_singleton] at hd
      rcases hd with ⟨x, -, rfl⟩ | rfl
      · simp
      · simp
  · intro hnd
    rw [updateSavedDevices_ids devices device]
    split_ifs with hex
    · simpa using hnd
    · refine List.Nodup.append hnd (List.nodup_singleton _) ?_
      intro x hx hy
      simp only [List.mem_singleton] at hy
      subst hy
      simp only [List.mem_map] at hx
      obtain ⟨y, hy2, hy3⟩ := hx
      exact hex (List.any_eq_true.mpr ⟨y, hy2, by simp [hy3]⟩)

/-- Concrete instance of C8: reconnecting to A with history `[A, B]` keeps
the order `[A, B]` and marks exactly A as last-connected. -/
theorem c8_history_update_witness :
    ((BT.updateSavedDevicesOnConnect
        [⟨"A", "DeviceA", false⟩, ⟨"B", "DeviceB", true⟩]
        ⟨"A", "DeviceA", false⟩).map BT.SavedDevice.id =
      ["A", "B"] ++ []) ∧
    ((BT.SavedDevice.mk "A" "DeviceA" true).lastConnected = true ↔
      (BT.SavedDevice.mk "A" "DeviceA" true).id = "A") :=
  ⟨(c8_history_update
      [⟨"A", "DeviceA", false⟩, ⟨"B", "DeviceB", true⟩]
      ⟨"A", "DeviceA", false⟩).1,
   (c8_history_update
      [⟨"A", "DeviceA", false⟩, ⟨"B", "DeviceB", true⟩]
      ⟨"A", "DeviceA", false⟩).2.1
      ⟨"A", "DeviceA", true⟩ (by decide)⟩

/-- Claim C9: the retry chain of `connectToDevice` under persistent failure
never reaches a terminating base case — after `n` consecutive failing
invocations the live attempt counter has reached `n` (so more than 3
attempts occur) and another retry is always scheduled, because the guard
`connectAttempts < 3` reads the attempt count captured by the closure that
started the chain (always 0), not the live counter.  This contradicts the
code's own "Retry connection if less than 3 attempts" comment and the
claimed hard bound of 3 attempts. -/
theorem c9_unbounded_retry (n : Nat) :
    (BT.connectRetryRun 0 BT.initialBt n).2 = true ∧
    ((BT.connectRetryRun 0 BT.initialBt n).1).connectAttempts = n ∧
    ((BT.connectRetryRun 0 BT.initialBt n).1).retriesScheduled = n := by
  induction n with
  | zero => exact ⟨rfl, rfl, rfl⟩
  | succ k ih =>
    obtain ⟨h1, h2, h3⟩ := ih
    unfold BT.connectRetryRun
    dsimp only
    rw [h1]
    simp only [if_true]
    unfold BT.connectToDeviceFail
    simp [h2, h3]

end AirAssist
